/-
Verification of the arbitrage-scan core (`arbitrage_core.py`).

This file gives a shallow embedding, in Lean 4, of the pure computational
core of the repository's scan pipeline:

* `parse_price_gbp` — the currency-anchored price parser (regex
  `£\s*([0-9]+(?:[\.,][0-9]{1,2})?)` searched on the comma-stripped text,
  then `float()` conversion), modelled character-for-character;
* `estimate_profit` — the profit estimator, including the operator-precedence
  accident on its final `return` statement (the conditional expression binds
  only the third tuple component, so a zero total places the Python value
  `(None, None, None)` in the *profit slot* of the returned triple);
* `get` — the resilient fetcher's retry loop, modelled against an abstract
  endpoint `Nat → ReqOutcome` giving the outcome of each attempt;
* `discover_best_seller_categories` — category discovery with its
  seed-list fallback, set-based dedup/bounding loop and sort-then-truncate;
* `find_opportunities` — the orchestrator: keyword filter, query building,
  demand/price resolution (abstracted behind a `ScanEnv` oracle, which
  stands for `scrape_amazon_bestsellers`, the best-price resolvers and the
  sold-count resolvers, all of which are network-bound), profit estimation,
  threshold gate, and the final stable descending sort with Python's
  `or -9e9` key substitution.

Monetary amounts are modelled as exact rationals `ℚ`; Python exceptions are
modelled with `Except`; Python `None` with `Option`.  Network effects are
abstracted as oracles: an environment value records what each request would
return, and the control flow around those results is translated faithfully
from the source.
-/
import Mathlib

namespace Arbitrage

/-! ## Python-level auxiliary notions -/

/-- A Python exception relevant to the scan pipeline: the module's own
`FetchError` (raised by `get` after exhausting retries) or a
`requests.HTTPError` (raised by a bare `raise_for_status()` on the
API code paths, which do not go through `get`). -/
inductive PyExc where
  | fetchError (msg : String)
  | httpError (code : Nat)
deriving DecidableEq, Repr

/-- Python substring test `needle in haystack`, on character lists. -/
def pySubstr (needle haystack : List Char) : Bool :=
  decide (needle <+: haystack) ||
    match haystack with
    | [] => false
    | _ :: t => pySubstr needle t

/-- Python truthiness of an optional number: `None` and `0` are falsy. -/
def pyTruthy (o : Option ℚ) : Bool :=
  match o with
  | Option.none => false
  | Option.some q => decide (q ≠ 0)

/-- Python `str.split()` (no argument): split on runs of whitespace,
discarding empty pieces. -/
def pySplit (s : String) : List String :=
  (s.split Char.isWhitespace).filter (fun w => w ≠ "")

/-! ## `parse_price_gbp` (src lines 84–94)

```python
_price_re = re.compile(r"£\s*([0-9]+(?:[\.,][0-9]{1,2})?)")
def parse_price_gbp(text):
    if not text: return None
    m = _price_re.search(text.replace(",", ""))
    if not m: return None
    try: return float(m.group(1).replace(",", "").replace(" ", "").replace("£", ""))
    except: return None
```
-/

/-- `str.replace(",", "")`: drop every comma. -/
def removeCommas (s : String) : String :=
  String.mk (s.data.filter (fun c => ¬ c = ','))

/-- The optional fragment `(?:[\.,][0-9]{1,2})?` of the price regex, matched
greedily at the head of `cs`: a separator `.` or `,` followed by one or two
digits (two if available). Returns the matched characters. -/
def matchFrac (cs : List Char) : Option (List Char) :=
  match cs with
  | sep :: d1 :: rest =>
      if (sep = '.' ∨ sep = ',') ∧ d1.isDigit then
        match rest with
        | d2 :: _ => if d2.isDigit then Option.some [sep, d1, d2] else Option.some [sep, d1]
        | [] => Option.some [sep, d1]
      else Option.none
  | _ => Option.none

/-- Match the price regex `£\s*([0-9]+(?:[\.,][0-9]{1,2})?)` anchored at the
head of `cs`; on success return capture group 1. `[0-9]+` is greedy
(maximal digit run), as is the optional fraction. -/
def matchPriceAt (cs : List Char) : Option String :=
  match cs with
  | '£' :: rest =>
      let afterWs := rest.dropWhile Char.isWhitespace
      let ds := afterWs.takeWhile Char.isDigit
      if ds = [] then Option.none
      else
        match matchFrac (afterWs.dropWhile Char.isDigit) with
        | Option.some fs => Option.some (String.mk (ds ++ fs))
        | Option.none => Option.some (String.mk ds)
  | _ => Option.none

/-- `re.search`: try the pattern at each successive start position,
left to right, returning the first match's capture group 1. -/
def searchPrice (cs : List Char) : Option String :=
  match cs with
  | [] => Option.none
  | _ :: t =>
      match matchPriceAt cs with
      | Option.some g => Option.some g
      | Option.none => searchPrice t

/-- Numeric value of a digit run (most significant first). -/
def digitsToNat (ds : List Char) : Nat :=
  ds.foldl (fun n c => 10 * n + (c.toNat - '0'.toNat)) 0

/-- Python `float()` on decimal literals of the shapes the price regex can
produce (`digits` or `digits.digits`); other inputs yield `none`
(the `try/except` in the source). Exact rational semantics. -/
def ratOfDecimal (s : String) : Option ℚ :=
  let ip := s.data.takeWhile Char.isDigit
  match s.data.dropWhile Char.isDigit with
  | [] => if ip = [] then Option.none else Option.some ((digitsToNat ip : ℚ))
  | '.' :: fp =>
      if fp.all Char.isDigit ∧ (ip ≠ [] ∨ fp ≠ []) then
        Option.some ((digitsToNat ip : ℚ) + (digitsToNat fp : ℚ) / ((10 : ℚ) ^ fp.length))
      else Option.none
  | _ => Option.none

/-- The cleanup `m.group(1).replace(",", "").replace(" ", "").replace("£", "")`. -/
def cleanGroup (s : String) : String :=
  String.mk (s.data.filter (fun c => ¬ (c = ',' ∨ c = ' ' ∨ c = '£')))

/-- `parse_price_gbp` (src lines 85–94). -/
def parse_price_gbp (text : String) : Option ℚ :=
  if text = "" then Option.none
  else
    match searchPrice (removeCommas text).data with
    | Option.none => Option.none
    | Option.some g => ratOfDecimal (cleanGroup g)

/-! ## `estimate_profit` (src lines 383–391)

```python
def estimate_profit(amazon_price, ebay_price, ebay_shipping, fee_rate, fixed_fee):
    if amazon_price is None or ebay_price is None:
        return None, None, None
    ebay_total_price = ebay_price + ebay_shipping
    fee = ebay_total_price * fee_rate + fixed_fee
    profit = ebay_total_price - amazon_price - fee
    margin = profit / ebay_total_price if ebay_total_price else None
    return ebay_total_price, fee, profit if margin is not None else (None, None, None)
```

The final line parses as
`return (ebay_total_price, fee, (profit if margin is not None else (None, None, None)))`:
the conditional expression governs only the third component.  When the
total is zero the function therefore returns a triple whose third slot holds
the Python tuple `(None, None, None)` — not a number and not `None`.
`ProfitSlot` records the three values the slot can take. -/

/-- The value occupying the third component of `estimate_profit`'s result:
a number, Python `None` (both prices absent path), or the nested tuple
`(None, None, None)` produced by the precedence accident at zero total. -/
inductive ProfitSlot where
  | none
  | val (p : ℚ)
  | nestedNone
deriving DecidableEq, Repr

/-- The estimator's local `margin = profit / ebay_total_price if ebay_total_price else None`
(Python truthiness: a zero total selects `None`, so no division occurs). -/
def est_margin (profit ebay_total_price : ℚ) : Option ℚ :=
  if ebay_total_price ≠ 0 then Option.some (profit / ebay_total_price) else Option.none

/-- `estimate_profit` (src lines 383–391). -/
def estimate_profit (amazon_price ebay_price : Option ℚ)
    (ebay_shipping fee_rate fixed_fee : ℚ) : Option ℚ × Option ℚ × ProfitSlot :=
  match amazon_price, ebay_price with
  | Option.some ap, Option.some ep =>
      let ebay_total_price := ep + ebay_shipping
      let fee := ebay_total_price * fee_rate + fixed_fee
      let profit := ebay_total_price - ap - fee
      match est_margin profit ebay_total_price with
      | Option.some _ => (Option.some ebay_total_price, Option.some fee, ProfitSlot.val profit)
      | Option.none => (Option.some ebay_total_price, Option.some fee, ProfitSlot.nestedNone)
  | _, _ => (Option.none, Option.none, ProfitSlot.none)

/-! ## The resilient fetcher `get` (src lines 51–82)

```python
def get(url):
    last_exc = None
    for attempt in range(1, MAX_RETRIES + 1):
        headers = {...}
        try:
            url_eff = _wrap_with_provider(url)
            resp = requests.get(url_eff, headers=headers, timeout=30)
            if resp.status_code in (429, 503, 502, 520, 522, 524):
                time.sleep(BACKOFF_BASE * attempt);  continue
            if resp.status_code == 403:
                time.sleep(BACKOFF_BASE * attempt)
                if attempt < MAX_RETRIES:
                    continue
            resp.raise_for_status()
            return resp
        except requests.RequestException as e:
            last_exc = e
            time.sleep(BACKOFF_BASE * attempt)
    raise FetchError(f"Failed to fetch after retries: {url} :: {last_exc}")
```

The endpoint is abstracted as `env : Nat → ReqOutcome`, giving for each
attempt number the outcome of `requests.get` on that attempt.  Sleeps and
header randomization do not affect the result and are not modelled.
`raise_for_status()` raises for every status ≥ 400 and is a no-op below. -/

/-- Outcome of one `requests.get` call: a response with a status code,
or a raised `requests.RequestException` (identified by its message). -/
inductive ReqOutcome where
  | status (code : Nat)
  | exc (msg : String)
deriving DecidableEq, Repr

/-- What the fetcher records in `last_exc`: a network-level
`RequestException`, or the `HTTPError` raised by `raise_for_status()`. -/
inductive FailReason where
  | netExc (msg : String)
  | httpStatusError (code : Nat)
deriving DecidableEq, Repr

/-- The tuple `(429, 503, 502, 520, 522, 524)` tested on line 71. -/
def RETRYABLE_STATUSES : List Nat := [429, 503, 502, 520, 522, 524]

/-- One pass of the retry loop of `get`.  `fuel` is the number of loop
iterations still available (`get` starts it at `MAX_RETRIES`, matching
`range(1, MAX_RETRIES + 1)`); `attempt` is the Python loop variable; and
`lastExc` is the running `last_exc`.  Returns the result (`ok` status on
a successful return, `error last_exc` for the final `raise FetchError`)
paired with the number of `requests.get` calls issued. -/
def getAux (env : Nat → ReqOutcome) (maxRetries : Nat) :
    Nat → Nat → Option FailReason → Except (Option FailReason) Nat × Nat
  | _, 0, lastExc => (Except.error lastExc, 0)
  | attempt, fuel + 1, lastExc =>
      match env attempt with
      | ReqOutcome.exc m =>
          let r := getAux env maxRetries (attempt + 1) fuel (Option.some (FailReason.netExc m))
          (r.1, r.2 + 1)
      | ReqOutcome.status c =>
          if RETRYABLE_STATUSES.contains c then
            let r := getAux env maxRetries (attempt + 1) fuel lastExc
            (r.1, r.2 + 1)
          else if c = 403 ∧ attempt < maxRetries then
            let r := getAux env maxRetries (attempt + 1) fuel lastExc
            (r.1, r.2 + 1)
          else if c < 400 then (Except.ok c, 1)
          else
            let r := getAux env maxRetries (attempt + 1) fuel (Option.some (FailReason.httpStatusError c))
            (r.1, r.2 + 1)

/-- `get` (src lines 51–82): result of the whole retry loop. -/
def get (env : Nat → ReqOutcome) (maxRetries : Nat) : Except (Option FailReason) Nat :=
  (getAux env maxRetries 1 maxRetries Option.none).1

/-- Number of `requests.get` calls a run of `get` issues. -/
def get_request_count (env : Nat → ReqOutcome) (maxRetries : Nat) : Nat :=
  (getAux env maxRetries 1 maxRetries Option.none).2

/-- The outcome of an attempt is a "failure" in the sense of claim C8:
a retryable status or a network exception. -/
def failOutcome : ReqOutcome → Bool
  | ReqOutcome.exc _ => true
  | ReqOutcome.status c => RETRYABLE_STATUSES.contains c

/-- The value `last_exc` holds after attempts `1..maxRetries` have run,
when no attempt returned: the reason recorded by the most recent attempt
that recorded one (retryable statuses record nothing). -/
def last_recorded_failure (env : Nat → ReqOutcome) (maxRetries : Nat) : Option FailReason :=
  (List.range' 1 maxRetries).foldl
    (fun acc a =>
      match env a with
      | ReqOutcome.exc m => Option.some (FailReason.netExc m)
      | ReqOutcome.status _ => acc)
    Option.none

/-! ## Category discovery (src lines 147–180)

```python
def discover_best_seller_categories(max_categories=20):
    found = set()
    try:
        resp = get(AMAZON_BEST_ROOT)
        soup = BeautifulSoup(resp.text, "html.parser")
        anchors = soup.select("a[href*='/gp/bestsellers/']")
        for a in anchors:
            href = a.get("href","")
            if not href: continue
            url = href if href.startswith("http") else urllib.parse.urljoin(AMAZON_BASE, href)
            path = urllib.parse.urlparse(url).path
            if re.search(r"/gp/bestsellers/[^/]+/?$", path):
                found.add(url)
                if len(found) >= max_categories: break
        if not found:
            found.update(DEFAULT_SEED_CATEGORIES[:max_categories])
    except FetchError:
        found.update(DEFAULT_SEED_CATEGORIES[:max_categories])
    return sorted(found)[:max_categories]
```

The fetch-and-extract of the root page is abstracted as
`fetched : Except PyExc (List String)`: on success it is the sequence, in
document order, of resolved absolute URLs of the anchors whose path matched
the category pattern (the HTML parsing, `urljoin` resolution and path-regex
filter are folded into the oracle).  The collection loop over that sequence
(set-dedup plus the `len(found) >= max_categories` break) is translated
explicitly. -/

def AMAZON_BEST_ROOT : String := "https://www.amazon.co.uk/gp/bestsellers"

/-- `DEFAULT_SEED_CATEGORIES` (src lines 147–158). -/
def DEFAULT_SEED_CATEGORIES : List String :=
  [ AMAZON_BEST_ROOT ++ "/electronics"
  , AMAZON_BEST_ROOT ++ "/kitchen"
  , AMAZON_BEST_ROOT ++ "/computers"
  , AMAZON_BEST_ROOT ++ "/garden"
  , AMAZON_BEST_ROOT ++ "/sports"
  , AMAZON_BEST_ROOT ++ "/toys"
  , AMAZON_BEST_ROOT ++ "/health"
  , AMAZON_BEST_ROOT ++ "/beauty"
  , AMAZON_BEST_ROOT ++ "/diy"
  , AMAZON_BEST_ROOT ++ "/automotive" ]

/-- The comparison used by Python's `sorted` on strings: ascending
lexicographic by code point (`String`'s linear order compares character
lists lexicographically by code point, matching Python's comparison). -/
def strLe (a b : String) : Bool := decide (a ≤ b)

/-- Python `sorted` on a list of strings. -/
def sortStrings (l : List String) : List String :=
  List.mergeSort l strLe

/-- The anchor loop: `found` is the insertion-ordered set; each URL is
added unless already present, and the loop breaks as soon as
`len(found) >= max_categories` holds after an addition. -/
def collectLoop (max_categories : Nat) : List String → List String → List String
  | [], found => found
  | u :: us, found =>
      let found' := if u ∈ found then found else found ++ [u]
      if max_categories ≤ found'.length then found'
      else collectLoop max_categories us found'

/-- The multiset `found` at the `return` line of
`discover_best_seller_categories`, before sorting and truncation. -/
def collectedCategories (fetched : Except PyExc (List String)) (max_categories : Nat) :
    List String :=
  match fetched with
  | Except.error _ => DEFAULT_SEED_CATEGORIES.take max_categories
  | Except.ok urls =>
      let f := collectLoop max_categories urls []
      if f = [] then DEFAULT_SEED_CATEGORIES.take max_categories else f

/-- `discover_best_seller_categories` (src lines 160–180). The
`except FetchError` arm is the `Except.error` branch of
`collectedCategories`; the function itself never fails. -/
def discover_best_seller_categories (fetched : Except PyExc (List String))
    (max_categories : Nat) : List String :=
  (sortStrings (collectedCategories fetched max_categories)).take max_categories

/-! ## Data model (src lines 108–145) -/

/-- `AmazonProduct` (src lines 108–118). -/
structure AmazonProduct where
  title : String
  asin : Option String
  price_gbp : Option ℚ
  prime : Bool
  rating : Option ℚ
  reviews_count : Option Nat
  url : String
  category_url : String
  image_url : Option String
deriving DecidableEq, Repr

/-- `EbayResult` (src lines 120–125). -/
structure EbayResult where
  title : String
  price_gbp : Option ℚ
  shipping_gbp : ℚ
  url : String
deriving DecidableEq, Repr

/-- `OpportunityRow` (src lines 127–145). -/
structure OpportunityRow where
  title : String
  amazon_price : Option ℚ
  ebay_price : Option ℚ
  ebay_shipping : ℚ
  ebay_total_price : Option ℚ
  estimated_ebay_fee : Option ℚ
  est_profit_gbp : Option ℚ
  est_margin : Option ℚ
  prime : Bool
  rating : Option ℚ
  reviews : Option Nat
  amazon_url : String
  ebay_url : String
  asin : Option String
  category_url : String
  image_url : Option String
  sold_recent : Nat
deriving DecidableEq, Repr

/-! ## The orchestrator `find_opportunities` (src lines 393–450)

The three network-bound calls the per-candidate loop makes are abstracted
as an oracle `ScanEnv`:

* `scrape cat` stands for `scrape_amazon_bestsellers(cat, max_items=max_items)`
  — its page fetches go through `get`, so it either returns a product list
  or raises `FetchError`;
* `bestPrice query` stands for `ebay_find_best_price_api(EBAY_APP_ID, query)`
  (when `EBAY_APP_ID` is set; may raise `requests.HTTPError` from its bare
  `raise_for_status()`) or `scrape_ebay_best_price(query, ...)` (otherwise;
  may raise `FetchError`);
* `soldCount query` stands for `ebay_completed_sold_count_api(...)` or
  `ebay_sold_count_html(...)` — both return a non-negative count, and may
  raise as above.

The strategy selection on `EBAY_APP_ID`, and the bounds `max_items` /
`max_ebay_results` / `entries` / `max_scan`, are folded into the oracle;
everything the orchestrator itself does with the results is translated
line by line. -/

structure ScanEnv where
  scrape : String → Except PyExc (List AmazonProduct)
  bestPrice : String → Except PyExc (Option EbayResult)
  soldCount : String → Except PyExc Nat

/-- The default avoid-list installed when `avoid_keywords is None`
(src line 404). -/
def DEFAULT_AVOID_KEYWORDS : List String :=
  ["Apple iPhone", "Nike", "PlayStation", "Xbox", "Gift Card"]

/-- Python `str.lower()` on a character list.  (`Char.toLower` lowers the
ASCII range, which coincides with Python's `lower()` on the ASCII
keywords and titles involved.) -/
def lowerChars (cs : List Char) : List Char := cs.map Char.toLower

/-- The filter `any(k.lower() in p.title.lower() for k in avoid_keywords)`
(src line 410). -/
def titleHitsAvoid (avoid : List String) (title : String) : Bool :=
  avoid.any (fun k => pySubstr (lowerChars k.data) (lowerChars title.data))

/-- `query = " ".join(p.title.split()[:query_words])` (src line 412). -/
def buildQuery (title : String) (query_words : Nat) : String :=
  String.intercalate " " ((pySplit title).take query_words)

/-- The orchestrator's own margin expression (src line 427):
`margin = (profit / ebay_total) if (profit is not None and ebay_total) else None`.
The slot value `nestedNone` is `not None` in Python, but it only ever
arrives together with `ebay_total = some 0` (see `estimate_profit`), which
is falsy, so the division is never applied to it; the `nestedNone` arm
below is therefore only exercised with a zero total and yields `none`. -/
def orch_margin (profit : ProfitSlot) (ebay_total : Option ℚ) : Option ℚ :=
  match profit with
  | ProfitSlot.none => Option.none
  | ProfitSlot.val p => if pyTruthy ebay_total then Option.some (p / (ebay_total.getD 0)) else Option.none
  | ProfitSlot.nestedNone => Option.none

/-- The body of the inner `for p in products` loop (src lines 409–448) for
one candidate: keyword filter, query build, price/demand resolution,
estimation, margin, threshold gate, and (when the gate passes) the
constructed `OpportunityRow`.  Returns `none` when the candidate is
filtered or fails the gate. In the gate
(`profit is not None and margin is not None and sold_recent >= ... and
profit >= ... and margin >= ...`) the comparisons on `profit`/`margin`
are only reached when both are numbers, by short-circuiting; a
`nestedNone` profit always comes with a `none` margin, so the gate fails
before ever comparing it. -/
def processProduct (env : ScanEnv) (avoid : List String) (query_words : Nat)
    (ebay_fee_rate ebay_fixed_fee min_profit min_margin : ℚ) (min_sold_recent : Nat)
    (p : AmazonProduct) : Except PyExc (Option OpportunityRow) := do
  if titleHitsAvoid avoid p.title then
    return Option.none
  let query := buildQuery p.title query_words
  let best ← env.bestPrice query
  let ebay_price : Option ℚ :=
    match best with
    | Option.some b => b.price_gbp
    | Option.none => Option.none
  let ebay_ship : ℚ :=
    match best with
    | Option.some b => b.shipping_gbp
    | Option.none => 0
  let sold_recent ← env.soldCount query
  let r := estimate_profit p.price_gbp ebay_price ebay_ship ebay_fee_rate ebay_fixed_fee
  let ebay_total := r.1
  let fees := r.2.1
  let profit := r.2.2
  let margin := orch_margin profit ebay_total
  match profit, margin with
  | ProfitSlot.val pv, Option.some mv =>
      if decide (min_sold_recent ≤ sold_recent) && decide (min_profit ≤ pv)
          && decide (min_margin ≤ mv) then
        return Option.some
          { title := p.title
          , amazon_price := p.price_gbp
          , ebay_price := ebay_price
          , ebay_shipping := ebay_ship
          , ebay_total_price := ebay_total
          , estimated_ebay_fee := fees
          , est_profit_gbp := Option.some pv
          , est_margin := Option.some mv
          , prime := p.prime
          , rating := p.rating
          , reviews := p.reviews_count
          , amazon_url := p.url
          , ebay_url := (match best with | Option.some b => b.url | Option.none => "")
          , asin := p.asin
          , category_url := p.category_url
          , image_url := p.image_url
          , sold_recent := sold_recent }
      else
        return Option.none
  | _, _ => return Option.none

/-- The inner loop over the products of one category, in order; a raised
exception aborts the remainder. -/
def processProducts (env : ScanEnv) (avoid : List String) (query_words : Nat)
    (ebay_fee_rate ebay_fixed_fee min_profit min_margin : ℚ) (min_sold_recent : Nat) :
    List AmazonProduct → Except PyExc (List OpportunityRow)
  | [] => pure []
  | p :: ps => do
      let r ← processProduct env avoid query_words ebay_fee_rate ebay_fixed_fee
        min_profit min_margin min_sold_recent p
      let rest ← processProducts env avoid query_words ebay_fee_rate ebay_fixed_fee
        min_profit min_margin min_sold_recent ps
      match r with
      | Option.some row => pure (row :: rest)
      | Option.none => pure rest

/-- The outer loop over the categories, in order (src lines 407–448); a
raised exception aborts the remainder. -/
def processCategories (env : ScanEnv) (avoid : List String) (query_words : Nat)
    (ebay_fee_rate ebay_fixed_fee min_profit min_margin : ℚ) (min_sold_recent : Nat) :
    List String → Except PyExc (List OpportunityRow)
  | [] => pure []
  | cat :: cats => do
      let products ← env.scrape cat
      let rs ← processProducts env avoid query_words ebay_fee_rate ebay_fixed_fee
        min_profit min_margin min_sold_recent products
      let rest ← processCategories env avoid query_words ebay_fee_rate ebay_fixed_fee
        min_profit min_margin min_sold_recent cats
      pure (rs ++ rest)

/-- The sort key of src line 449, first component:
`r.est_profit_gbp or -9e9` — Python `or` replaces both `None` and the
falsy number `0.0` by `-9e9`. -/
def rowKey (r : OpportunityRow) : ℚ :=
  match r.est_profit_gbp with
  | Option.none => -9000000000
  | Option.some p => if p = 0 then -9000000000 else p

/-- `rows.sort(key=lambda r: (r.est_profit_gbp or -9e9, r.sold_recent), reverse=True)`
is a stable descending sort on the key pair: `a` may precede `b` iff `a`'s
pair is lexicographically ≥ `b`'s. -/
def rowLe (a b : OpportunityRow) : Bool :=
  decide (rowKey b < rowKey a) ||
    (decide (rowKey b = rowKey a) && decide (b.sold_recent ≤ a.sold_recent))

/-- `find_opportunities` (src lines 393–450).  Parameters appear in source
order; the Python defaults are `min_profit=3.0`, `min_margin=0.12`,
`min_sold_recent=10`, `ebay_fee_rate=0.13`, `ebay_fixed_fee=0.30`,
`avoid_keywords=None`, `query_words=8`. -/
def find_opportunities (env : ScanEnv) (categories : List String)
    (min_profit min_margin : ℚ) (min_sold_recent : Nat)
    (ebay_fee_rate ebay_fixed_fee : ℚ)
    (avoid_keywords : Option (List String)) (query_words : Nat) :
    Except PyExc (List OpportunityRow) := do
  let avoid := avoid_keywords.getD DEFAULT_AVOID_KEYWORDS
  let rows ← processCategories env avoid query_words ebay_fee_rate ebay_fixed_fee
    min_profit min_margin min_sold_recent categories
  pure (List.mergeSort rows rowLe)

/-! ## Concrete scan scenarios used by counterexamples and witnesses -/

/-- A product scraped from a category: Amazon price £10. -/
def prodW : AmazonProduct :=
  ⟨"Widget", Option.none, Option.some 10, false, Option.none, Option.none, "au", "cu", Option.none⟩

/-- The matching eBay listing: £30, free shipping. -/
def ebayW : EbayResult := ⟨"Widget", Option.some 30, 0, "eu"⟩

/-- A scan environment in which fetching category `"cat1"` exhausts the
fetcher's retries (raising `FetchError`) while every other category yields
one well-priced product with strong demand. -/
def envC3 : ScanEnv where
  scrape := fun c =>
    if c = "cat1" then Except.error (PyExc.fetchError "net down") else Except.ok [prodW]
  bestPrice := fun _ => Except.ok (Option.some ebayW)
  soldCount := fun _ => Except.ok 50

/-- The row the scan produces from `prodW`/`ebayW` at the Python default
parameters: total £30, fee £30·0.13 + £0.30 = £4.20, profit £15.80,
margin 79/150 ≈ 0.527, 50 recent sales. -/
def rowW : OpportunityRow where
  title := "Widget"
  amazon_price := Option.some 10
  ebay_price := Option.some 30
  ebay_shipping := 0
  ebay_total_price := Option.some 30
  estimated_ebay_fee := Option.some (21 / 5)
  est_profit_gbp := Option.some (79 / 5)
  est_margin := Option.some (79 / 150)
  prime := false
  rating := Option.none
  reviews := Option.none
  amazon_url := "au"
  ebay_url := "eu"
  asin := Option.none
  category_url := "cu"
  image_url := Option.none
  sold_recent := 50

/-- Product "A": Amazon price £5 — resale at £5 total gives profit exactly 0. -/
def prodA5 : AmazonProduct :=
  ⟨"A", Option.none, Option.some 5, false, Option.none, Option.none, "auA", "cu", Option.none⟩

/-- Product "B": Amazon price £6 — resale at £5 total gives profit −£1. -/
def prodB5 : AmazonProduct :=
  ⟨"B", Option.none, Option.some 6, false, Option.none, Option.none, "auB", "cu", Option.none⟩

/-- An environment where both candidates resolve to a £5 total best price. -/
def envC5 : ScanEnv where
  scrape := fun _ => Except.ok [prodA5, prodB5]
  bestPrice := fun _ => Except.ok (Option.some ⟨"x", Option.some 5, 0, "eu"⟩)
  soldCount := fun _ => Except.ok 0

/-- The row built from `prodA5` (profit exactly 0) at fee rate 0, fixed fee 0. -/
def rowA5 : OpportunityRow where
  title := "A"
  amazon_price := Option.some 5
  ebay_price := Option.some 5
  ebay_shipping := 0
  ebay_total_price := Option.some 5
  estimated_ebay_fee := Option.some 0
  est_profit_gbp := Option.some 0
  est_margin := Option.some 0
  prime := false
  rating := Option.none
  reviews := Option.none
  amazon_url := "auA"
  ebay_url := "eu"
  asin := Option.none
  category_url := "cu"
  image_url := Option.none
  sold_recent := 0

/-- The row built from `prodB5` (profit −£1) at fee rate 0, fixed fee 0. -/
def rowB5 : OpportunityRow where
  title := "B"
  amazon_price := Option.some 6
  ebay_price := Option.some 5
  ebay_shipping := 0
  ebay_total_price := Option.some 5
  estimated_ebay_fee := Option.some 0
  est_profit_gbp := Option.some (-1)
  est_margin := Option.some (-1 / 5)
  prime := false
  rating := Option.none
  reviews := Option.none
  amazon_url := "auB"
  ebay_url := "eu"
  asin := Option.none
  category_url := "cu"
  image_url := Option.none
  sold_recent := 0

/-- An endpoint on which every `requests.get` raises a connection error. -/
def envAllExc : Nat → ReqOutcome := fun _ => ReqOutcome.exc "refused"

/-- A highly profitable product whose title contains the default
avoid-keyword "Nike". -/
def prodNike : AmazonProduct :=
  ⟨"Nike Air Zoom", Option.none, Option.some 10, false, Option.none, Option.none, "auN", "cu", Option.none⟩

/-- An environment whose single candidate is `prodNike`, with resolution
results that would pass every default threshold. -/
def envC10 : ScanEnv where
  scrape := fun _ => Except.ok [prodNike]
  bestPrice := fun _ => Except.ok (Option.some ⟨"n", Option.some 30, 0, "eun"⟩)
  soldCount := fun _ => Except.ok 50

/-! # Theorems -/

/-- Claim C1, counterexample.  With both prices present but a zero total
(source price £10, target price £0, shipping £0), the profit slot of
`estimate_profit` holds the nested `(None, None, None)` tuple, not the
value `(target + shipping) × (1 − rate) − fixed − source` the claim
asserts; so "the profit output equals the formula whenever both prices
are present" fails at this input. -/
theorem estimate_profit_formula_counterexample :
    (estimate_profit (Option.some 10) (Option.some 0) 0 (13 / 100) (3 / 10)).2.2 =
      ProfitSlot.nestedNone ∧
    ProfitSlot.nestedNone ≠
      ProfitSlot.val (((0 : ℚ) + 0) * (1 - 13 / 100) - 3 / 10 - 10) := by
  constructor
  · simp [estimate_profit, est_margin]
  · intro h
    cases h

/-- Claim C1, amended: when both prices are present *and the total
(target price + shipping) is nonzero*, `estimate_profit` returns the total,
the fee, and a profit equal to (target + shipping) × (1 − rate) − fixed −
source exactly; when either price is absent all outputs are absent.  (At a
zero total the precedence accident on the `return` line places the Python
tuple `(None, None, None)` in the profit slot instead — see the
counterexample.) -/
theorem estimate_profit_amended (ap ep ship rate fixed : ℚ) :
    (ep + ship ≠ 0 →
      estimate_profit (Option.some ap) (Option.some ep) ship rate fixed =
        (Option.some (ep + ship), Option.some ((ep + ship) * rate + fixed),
          ProfitSlot.val ((ep + ship) * (1 - rate) - fixed - ap))) ∧
    (∀ q ship2 rate2 fixed2, estimate_profit Option.none q ship2 rate2 fixed2 =
        (Option.none, Option.none, ProfitSlot.none)) ∧
    (∀ q ship2 rate2 fixed2, estimate_profit q Option.none ship2 rate2 fixed2 =
        (Option.none, Option.none, ProfitSlot.none)) := by
  refine ⟨fun h => ?_, fun q _ _ _ => rfl, fun q _ _ _ => ?_⟩
  · simp only [estimate_profit, est_margin, if_pos h]
    refine Prod.ext rfl (Prod.ext rfl ?_)
    simp only [ProfitSlot.val.injEq]
    ring
  · cases q <;> rfl

/-- Witness for `estimate_profit_amended`: the spec's own end-to-end
numbers — source £10, target £20, shipping £2, rate 0.13, fixed £0.30 give
total £22, fee £3.16 = 79/25, profit £8.84 = 221/25. -/
theorem estimate_profit_amended_witness :
    estimate_profit (Option.some 10) (Option.some 20) 2 (13 / 100) (3 / 10) =
      (Option.some 22, Option.some (79 / 25), ProfitSlot.val (221 / 25)) := by
  have h := (estimate_profit_amended 10 20 2 (13 / 100) (3 / 10)).1 (by norm_num)
  rw [h]
  norm_num

/-- Claim C2: with target price 0 and shipping 0 (source price present),
the margin is absent wherever it is computed — the estimator's own margin
local (`est_margin` with a zero total) is `None` by the truthiness guard,
and the orchestrator's margin expression on the estimator's output at that
input is `None` — and no division is performed in either place. -/
theorem zero_total_margin_absent (ap rate fixed pr : ℚ) :
    est_margin pr 0 = Option.none ∧
    orch_margin (estimate_profit (Option.some ap) (Option.some 0) 0 rate fixed).2.2
      (estimate_profit (Option.some ap) (Option.some 0) 0 rate fixed).1 = Option.none := by
  constructor
  · simp [est_margin]
  · simp [estimate_profit, est_margin, orch_margin, pyTruthy]

/-- Claim C7: the price parser maps `"£12.50"` to 12.50, maps
`"£1,234.99"` to 1234.99 (commas stripped before the regex search), and
maps any text in which the currency-anchored pattern finds no match to an
absent result. -/
theorem parse_price_gbp_spec :
    parse_price_gbp "£12.50" = Option.some (25 / 2) ∧
    parse_price_gbp "£1,234.99" = Option.some (123499 / 100) ∧
    ∀ t, searchPrice (removeCommas t).data = Option.none →
      parse_price_gbp t = Option.none := by
  refine ⟨?_, ?_, fun t ht => ?_⟩
  · have h1 : searchPrice (removeCommas "£12.50").data = Option.some "12.50" := by decide
    have hcg : cleanGroup "12.50" = "12.50" := by decide
    have htk : ("12.50" : String).data.takeWhile Char.isDigit = ['1', '2'] := by decide
    have hdr : ("12.50" : String).data.dropWhile Char.isDigit = ['.', '5', '0'] := by decide
    have hd1 : digitsToNat ['1', '2'] = 12 := by decide
    have hd2 : digitsToNat ['5', '0'] = 50 := by decide
    simp only [parse_price_gbp, if_neg (by decide : ¬ ("£12.50" : String) = ""), h1, hcg,
      ratOfDecimal, htk, hdr, if_pos (by decide :
        (['5', '0'] : List Char).all Char.isDigit = true ∧
          ((['1', '2'] : List Char) ≠ [] ∨ (['5', '0'] : List Char) ≠ [])),
      hd1, hd2, Option.some.injEq]
    norm_num
  · have h1 : searchPrice (removeCommas "£1,234.99").data = Option.some "1234.99" := by decide
    have hcg : cleanGroup "1234.99" = "1234.99" := by decide
    have htk : ("1234.99" : String).data.takeWhile Char.isDigit = ['1', '2', '3', '4'] := by decide
    have hdr : ("1234.99" : String).data.dropWhile Char.isDigit = ['.', '9', '9'] := by decide
    have hd1 : digitsToNat ['1', '2', '3', '4'] = 1234 := by decide
    have hd2 : digitsToNat ['9', '9'] = 99 := by decide
    simp only [parse_price_gbp, if_neg (by decide : ¬ ("£1,234.99" : String) = ""), h1, hcg,
      ratOfDecimal, htk, hdr, if_pos (by decide :
        (['9', '9'] : List Char).all Char.isDigit = true ∧
          ((['1', '2', '3', '4'] : List Char) ≠ [] ∨ (['9', '9'] : List Char) ≠ [])),
      hd1, hd2, Option.some.injEq]
    norm_num
  · by_cases he : t = ""
    · simp [parse_price_gbp, he]
    · simp [parse_price_gbp, he, ht]

/-- Witness for `parse_price_gbp_spec`: a text with no currency-anchored
number parses to an absent price. -/
theorem parse_price_gbp_spec_witness : parse_price_gbp "no price here" = Option.none :=
  parse_price_gbp_spec.2.2 "no price here" (by decide)

/-- The retry loop under a window of attempts that all fail with a
retryable status or a network exception: it runs the whole window, issues
one request per iteration, and ends in the `FetchError` raise carrying the
fold of the recorded exceptions over the window. -/
theorem getAux_fail (env : Nat → ReqOutcome) (maxRetries : Nat) :
    ∀ (fuel attempt : Nat) (lastExc : Option FailReason),
      (∀ i, i < fuel → failOutcome (env (attempt + i)) = true) →
      getAux env maxRetries attempt fuel lastExc =
        (Except.error ((List.range' attempt fuel).foldl
            (fun acc a =>
              match env a with
              | ReqOutcome.exc m => Option.some (FailReason.netExc m)
              | ReqOutcome.status _ => acc) lastExc),
          fuel) := by
  intro fuel
  induction fuel with
  | zero => intro attempt lastExc _; simp [getAux, List.range']
  | succ n ih =>
      intro attempt lastExc H
      have h0 : failOutcome (env attempt) = true := by
        have := H 0 (Nat.succ_pos n)
        simpa using this
      have Hshift : ∀ i, i < n → failOutcome (env (attempt + 1 + i)) = true := by
        intro i hi
        have := H (i + 1) (by omega)
        have harith : attempt + (i + 1) = attempt + 1 + i := by omega
        rwa [harith] at this
      rw [List.range'_succ, List.foldl_cons]
      cases henv : env attempt with
      | exc m =>
          simp only [getAux, henv, ih (attempt + 1) (Option.some (FailReason.netExc m)) Hshift]
      | status c =>
          have hc : RETRYABLE_STATUSES.contains c = true := by
            have := h0
            rw [henv] at this
            simpa [failOutcome] using this
          simp only [getAux, henv, hc, if_pos rfl,
            ih (attempt + 1) lastExc Hshift]
          simp

/-- Claim C8: against an endpoint whose every attempt fails with a
retryable status or a network exception, `get` issues exactly
`maxRetries` requests (default `MAX_RETRIES = 6`), never returns
normally, and raises `FetchError` carrying the last recorded underlying
failure (`last_exc`: the most recent network exception; retryable-status
attempts record nothing). -/
theorem get_retry_exhaustion (env : Nat → ReqOutcome) (maxRetries : Nat)
    (h : ∀ a, a < maxRetries → failOutcome (env (a + 1)) = true) :
    get env maxRetries = Except.error (last_recorded_failure env maxRetries) ∧
    get_request_count env maxRetries = maxRetries ∧
    ∀ s, get env maxRetries ≠ Except.ok s := by
  have hwin : ∀ i, i < maxRetries → failOutcome (env (1 + i)) = true := by
    intro i hi
    have := h i hi
    rwa [Nat.add_comm 1 i]
  have hmain := getAux_fail env maxRetries maxRetries 1 Option.none hwin
  refine ⟨?_, ?_, ?_⟩
  · simp only [get, hmain, last_recorded_failure]
  · simp only [get_request_count, hmain]
  · intro s hs
    rw [get, hmain] at hs
    cases hs

/-- Witness for `get_retry_exhaustion`: every attempt raises a connection
error; `get` issues exactly 6 requests and fails with the last one. -/
theorem get_retry_exhaustion_witness :
    get envAllExc 6 = Except.error (Option.some (FailReason.netExc "refused")) ∧
    get_request_count envAllExc 6 = 6 := by
  have h := get_retry_exhaustion envAllExc 6 (by decide)
  exact ⟨h.1.trans (congrArg Except.error (by decide :
    last_recorded_failure envAllExc 6 = Option.some (FailReason.netExc "refused"))), h.2.1⟩

/-- A candidate that produces a row was not keyword-filtered, and the row
records the candidate's title together with a profit, margin and sales
count that pass the threshold gate. -/
theorem processProduct_ok_some {env : ScanEnv} {avoid : List String} {qw : Nat}
    {fr ff mp mm : ℚ} {ms : Nat} {p : AmazonProduct} {row : OpportunityRow}
    (h : processProduct env avoid qw fr ff mp mm ms p = Except.ok (Option.some row)) :
    row.title = p.title ∧ titleHitsAvoid avoid p.title = false ∧
    (∃ pv, row.est_profit_gbp = Option.some pv ∧ mp ≤ pv) ∧
    (∃ mv, row.est_margin = Option.some mv ∧ mm ≤ mv) ∧
    ms ≤ row.sold_recent := by
  by_cases hA : titleHitsAvoid avoid p.title
  · rw [processProduct] at h
    simp [hA, pure, Except.pure] at h
  · rw [processProduct] at h
    simp only [hA, Bool.false_eq_true, if_false, bind, Except.bind, pure, Except.pure] at h
    cases hb : env.bestPrice (buildQuery p.title qw) with
    | error e =>
        rw [hb] at h
        simp at h
    | ok best =>
        rw [hb] at h
        dsimp only at h
        cases hs : env.soldCount (buildQuery p.title qw) with
        | error e =>
            rw [hs] at h
            simp at h
        | ok sold =>
            rw [hs] at h
            dsimp only at h
            split at h
            · rename_i pv mv hprofit hmargin
              split at h
              · rename_i hgate
                simp only [Except.ok.injEq, Option.some.injEq] at h
                subst h
                simp only [Bool.and_eq_true, decide_eq_true_eq] at hgate
                refine ⟨rfl, by simpa using hA, ⟨pv, rfl, hgate.1.2⟩, ⟨mv, rfl, hgate.2⟩,
                  hgate.1.1⟩
              · simp at h
            · simp at h

/-- A row in the output of the product loop comes from some product of the
input list. -/
theorem processProducts_mem {env : ScanEnv} {avoid : List String} {qw : Nat}
    {fr ff mp mm : ℚ} {ms : Nat} {row : OpportunityRow} :
    ∀ {ps : List AmazonProduct} {rs : List OpportunityRow},
      processProducts env avoid qw fr ff mp mm ms ps = Except.ok rs → row ∈ rs →
      ∃ p, p ∈ ps ∧
        processProduct env avoid qw fr ff mp mm ms p = Except.ok (Option.some row) := by
  intro ps
  induction ps with
  | nil =>
      intro rs h hr
      simp only [processProducts, pure, Except.pure, Except.ok.injEq] at h
      subst h
      cases hr
  | cons p ps ih =>
      intro rs h hr
      rw [processProducts] at h
      cases h1 : processProduct env avoid qw fr ff mp mm ms p with
      | error e => rw [h1] at h; simp [bind, Except.bind] at h
      | ok o =>
          rw [h1] at h
          cases h2 : processProducts env avoid qw fr ff mp mm ms ps with
          | error e => rw [h2] at h; simp [bind, Except.bind] at h
          | ok rest =>
              rw [h2] at h
              cases o with
              | some row0 =>
                  simp only [bind, Except.bind, pure, Except.pure, Except.ok.injEq] at h
                  subst h
                  rcases hr with _ | hr
                  · exact ⟨p, List.mem_cons_self p ps, h1⟩
                  · obtain ⟨q, hq, hq2⟩ := ih h2 (by assumption)
                    exact ⟨q, List.mem_cons_of_mem p hq, hq2⟩
              | none =>
                  simp only [bind, Except.bind, pure, Except.pure, Except.ok.injEq] at h
                  subst h
                  obtain ⟨q, hq, hq2⟩ := ih h2 hr
                  exact ⟨q, List.mem_cons_of_mem p hq, hq2⟩

/-- A row in the output of the category loop comes from some candidate
product. -/
theorem processCategories_mem {env : ScanEnv} {avoid : List String} {qw : Nat}
    {fr ff mp mm : ℚ} {ms : Nat} {row : OpportunityRow} :
    ∀ {cats : List String} {rs : List OpportunityRow},
      processCategories env avoid qw fr ff mp mm ms cats = Except.ok rs → row ∈ rs →
      ∃ p, processProduct env avoid qw fr ff mp mm ms p = Except.ok (Option.some row) := by
  intro cats
  induction cats with
  | nil =>
      intro rs h hr
      simp only [processCategories, pure, Except.pure, Except.ok.injEq] at h
      subst h
      cases hr
  | cons c cats ih =>
      intro rs h hr
      rw [processCategories] at h
      cases h1 : env.scrape c with
      | error e => rw [h1] at h; simp [bind, Except.bind] at h
      | ok products =>
          rw [h1] at h
          simp only [bind, Except.bind] at h
          cases h2 : processProducts env avoid qw fr ff mp mm ms products with
          | error e => rw [h2] at h; simp [bind, Except.bind] at h
          | ok rs1 =>
              rw [h2] at h
              simp only [bind, Except.bind] at h
              cases h3 : processCategories env avoid qw fr ff mp mm ms cats with
              | error e => rw [h3] at h; simp [bind, Except.bind] at h
              | ok rs2 =>
                  rw [h3] at h
                  simp only [bind, Except.bind, pure, Except.pure, Except.ok.injEq] at h
                  subst h
                  rcases List.mem_append.mp hr with hr1 | hr2
                  · obtain ⟨p, _, hp⟩ := processProducts_mem h2 hr1
                    exact ⟨p, hp⟩
                  · exact ih h3 hr2

/-- Every row returned by `find_opportunities` was produced (and so
gate-checked) by `processProduct` for some candidate. -/
theorem find_rows_ok {env : ScanEnv} {cats : List String} {mp mm fr ff : ℚ}
    {ms qw : Nat} {av : Option (List String)} {rows : List OpportunityRow}
    {row : OpportunityRow}
    (h : find_opportunities env cats mp mm ms fr ff av qw = Except.ok rows)
    (hrow : row ∈ rows) :
    ∃ p, processProduct env (av.getD DEFAULT_AVOID_KEYWORDS) qw fr ff mp mm ms p =
      Except.ok (Option.some row) := by
  rw [find_opportunities] at h
  cases hpc : processCategories env (av.getD DEFAULT_AVOID_KEYWORDS) qw fr ff mp mm ms cats with
  | error e => rw [hpc] at h; simp [bind, Except.bind] at h
  | ok rs =>
      rw [hpc] at h
      simp only [bind, Except.bind, pure, Except.pure, Except.ok.injEq] at h
      subst h
      exact processCategories_mem hpc (List.mem_mergeSort.mp hrow)

/-- Claim C4: every `OpportunityRow` returned by `find_opportunities`
passes the threshold gate — its profit is present and ≥ `min_profit`, its
margin is present and ≥ `min_margin`, and its recent-sales count is
≥ `min_sold_recent`; in particular a candidate with absent profit or
margin never produces a row. -/
theorem find_opportunities_threshold_gate (env : ScanEnv) (cats : List String)
    (mp mm fr ff : ℚ) (ms qw : Nat) (av : Option (List String))
    (rows : List OpportunityRow) (row : OpportunityRow)
    (h : find_opportunities env cats mp mm ms fr ff av qw = Except.ok rows)
    (hrow : row ∈ rows) :
    (∃ pv, row.est_profit_gbp = Option.some pv ∧ mp ≤ pv) ∧
    (∃ mv, row.est_margin = Option.some mv ∧ mm ≤ mv) ∧
    ms ≤ row.sold_recent := by
  obtain ⟨p, hp⟩ := find_rows_ok h hrow
  obtain ⟨-, -, h1, h2, h3⟩ := processProduct_ok_some hp
  exact ⟨h1, h2, h3⟩

/-- Witness for `find_opportunities_threshold_gate`: the qualifying run of
`envC3` on `["cat2"]` yields exactly `rowW`, whose profit 79/5, margin
79/150 and 50 sales pass the default thresholds. -/
theorem find_opportunities_threshold_gate_witness :
    (∃ pv, rowW.est_profit_gbp = Option.some pv ∧ (3 : ℚ) ≤ pv) ∧
    (∃ mv, rowW.est_margin = Option.some mv ∧ (12 / 100 : ℚ) ≤ mv) ∧
    (10 : Nat) ≤ rowW.sold_recent := by
  have hrun : find_opportunities envC3 ["cat2"] 3 (12 / 100) 10 (13 / 100) (3 / 10)
      (Option.some []) 8 = Except.ok [rowW] := by
    simp [find_opportunities, processCategories, processProducts, processProduct, envC3,
      bind, Except.bind, pure, Except.pure, titleHitsAvoid, estimate_profit, est_margin,
      orch_margin, pyTruthy, prodW, ebayW, rowW, List.mergeSort]
    norm_num
  exact find_opportunities_threshold_gate envC3 ["cat2"] 3 (12 / 100) (13 / 100) (3 / 10)
    10 8 (Option.some []) [rowW] rowW hrun (List.mem_singleton.mpr rfl)

/-- Claim C6: no row returned by `find_opportunities` has a title that
contains any avoid-keyword as a case-insensitive substring — a matching
candidate is dropped by the filter before resolution, regardless of
profitability or demand. -/
theorem find_opportunities_keyword_exclusion (env : ScanEnv) (cats : List String)
    (mp mm fr ff : ℚ) (ms qw : Nat) (av : Option (List String))
    (rows : List OpportunityRow) (row : OpportunityRow) (k : String)
    (h : find_opportunities env cats mp mm ms fr ff av qw = Except.ok rows)
    (hrow : row ∈ rows) (hk : k ∈ av.getD DEFAULT_AVOID_KEYWORDS) :
    pySubstr (lowerChars k.data) (lowerChars row.title.data) = false := by
  obtain ⟨p, hp⟩ := find_rows_ok h hrow
  obtain ⟨htitle, hav, -, -, -⟩ := processProduct_ok_some hp
  rw [htitle]
  cases hres : pySubstr (lowerChars k.data) (lowerChars p.title.data) with
  | false => rfl
  | true =>
      exfalso
      have hhit : titleHitsAvoid (av.getD DEFAULT_AVOID_KEYWORDS) p.title = true := by
        rw [titleHitsAvoid]
        exact List.any_eq_true.mpr ⟨k, hk, hres⟩
      rw [hhit] at hav
      cases hav

/-- Witness for `find_opportunities_keyword_exclusion`: in the qualifying
run with avoid-list `["x"]`, the produced row's title does not contain
`"x"`. -/
theorem find_opportunities_keyword_exclusion_witness :
    pySubstr (lowerChars ("x" : String).data) (lowerChars rowW.title.data) = false := by
  have havoid : titleHitsAvoid ["x"] "Widget" = false := by decide
  have hrun : find_opportunities envC3 ["cat2"] 3 (12 / 100) 10 (13 / 100) (3 / 10)
      (Option.some ["x"]) 8 = Except.ok [rowW] := by
    simp [find_opportunities, processCategories, processProducts, processProduct, envC3,
      bind, Except.bind, pure, Except.pure, havoid, estimate_profit, est_margin,
      orch_margin, pyTruthy, prodW, ebayW, rowW, List.mergeSort]
    norm_num
  exact find_opportunities_keyword_exclusion envC3 ["cat2"] 3 (12 / 100) (13 / 100) (3 / 10)
    10 8 (Option.some ["x"]) [rowW] rowW "x" hrun (List.mem_singleton.mpr rfl) (by simp)

/-- Claim C10: calling `find_opportunities` with `avoid_keywords` absent is
the same as calling it with the built-in default list — exactly
`["Apple iPhone", "Nike", "PlayStation", "Xbox", "Gift Card"]` — and no
row of such a call contains one of those five keywords in its title. -/
theorem find_opportunities_default_avoid (env : ScanEnv) (cats : List String)
    (mp mm fr ff : ℚ) (ms qw : Nat) :
    find_opportunities env cats mp mm ms fr ff Option.none qw =
      find_opportunities env cats mp mm ms fr ff
        (Option.some ["Apple iPhone", "Nike", "PlayStation", "Xbox", "Gift Card"]) qw ∧
    DEFAULT_AVOID_KEYWORDS = ["Apple iPhone", "Nike", "PlayStation", "Xbox", "Gift Card"] ∧
    ∀ rows row,
      find_opportunities env cats mp mm ms fr ff Option.none qw = Except.ok rows →
      row ∈ rows →
      titleHitsAvoid ["Apple iPhone", "Nike", "PlayStation", "Xbox", "Gift Card"]
        row.title = false := by
  refine ⟨rfl, rfl, fun rows row h hrow => ?_⟩
  obtain ⟨p, hp⟩ := find_rows_ok h hrow
  obtain ⟨htitle, hav, -, -, -⟩ := processProduct_ok_some hp
  rw [htitle]
  exact hav

/-- Witness for `find_opportunities_default_avoid`: with no avoid-list
supplied, a scan whose only candidate is the highly profitable
"Nike Air Zoom" returns no rows — the built-in default list excludes it. -/
theorem find_opportunities_default_avoid_witness :
    find_opportunities envC10 ["c"] 3 (12 / 100) 10 (13 / 100) (3 / 10) Option.none 8 =
      find_opportunities envC10 ["c"] 3 (12 / 100) 10 (13 / 100) (3 / 10)
        (Option.some ["Apple iPhone", "Nike", "PlayStation", "Xbox", "Gift Card"]) 8 ∧
    find_opportunities envC10 ["c"] 3 (12 / 100) 10 (13 / 100) (3 / 10) Option.none 8 =
      Except.ok [] := by
  refine ⟨(find_opportunities_default_avoid envC10 ["c"] 3 (12 / 100) (13 / 100) (3 / 10)
    10 8).1, ?_⟩
  have hnike : titleHitsAvoid DEFAULT_AVOID_KEYWORDS "Nike Air Zoom" = true := by decide
  simp [find_opportunities, processCategories, processProducts, processProduct, envC10,
    bind, Except.bind, pure, Except.pure, hnike, prodNike, List.mergeSort]

/-- Claim C3, counterexample.  A `FetchError` while fetching the first
category's listing pages aborts the whole scan: on `["cat1", "cat2"]` the
scan raises `FetchError` and `"cat2"` is never processed, even though a
scan of `["cat2"]` alone returns a qualifying row.  The failure is not
scoped to the single page/request that triggered it. -/
theorem find_opportunities_abort_counterexample :
    find_opportunities envC3 ["cat1", "cat2"] 3 (12 / 100) 10 (13 / 100) (3 / 10)
      (Option.some []) 8 = Except.error (PyExc.fetchError "net down") ∧
    find_opportunities envC3 ["cat2"] 3 (12 / 100) 10 (13 / 100) (3 / 10)
      (Option.some []) 8 = Except.ok [rowW] := by
  constructor
  · simp [find_opportunities, processCategories, envC3, bind, Except.bind]
  · simp [find_opportunities, processCategories, processProducts, processProduct, envC3,
      bind, Except.bind, pure, Except.pure, titleHitsAvoid, estimate_profit, est_margin,
      orch_margin, pyTruthy, prodW, ebayW, rowW, List.mergeSort]
    norm_num

/-- Claim C3, amended: `find_opportunities` performs no isolation — an
exception raised while fetching a category's listing pages, or while
resolving a candidate's best price, propagates out of the scan and aborts
all remaining categories and candidates.  (Only
`discover_best_seller_categories` catches `FetchError`.) -/
theorem fetch_error_propagates_and_aborts_scan (env : ScanEnv) (c : String)
    (rest : List String) (e : PyExc) (mp mm fr ff : ℚ) (ms qw : Nat)
    (av : Option (List String)) :
    (env.scrape c = Except.error e →
      find_opportunities env (c :: rest) mp mm ms fr ff av qw = Except.error e) ∧
    (∀ p ps, env.scrape c = Except.ok (p :: ps) →
      titleHitsAvoid (av.getD DEFAULT_AVOID_KEYWORDS) p.title = false →
      env.bestPrice (buildQuery p.title qw) = Except.error e →
      find_opportunities env (c :: rest) mp mm ms fr ff av qw = Except.error e) := by
  constructor
  · intro hc
    simp [find_opportunities, processCategories, hc, bind, Except.bind]
  · intro p ps hc hfilter hbp
    simp [find_opportunities, processCategories, processProducts, processProduct,
      hc, hfilter, hbp, bind, Except.bind, pure, Except.pure]

/-- Witness for `fetch_error_propagates_and_aborts_scan`: the single-category
scan of the failing `"cat1"` raises `FetchError`. -/
theorem fetch_error_propagates_witness :
    find_opportunities envC3 ["cat1"] 3 (12 / 100) 10 (13 / 100) (3 / 10)
      (Option.some []) 8 = Except.error (PyExc.fetchError "net down") :=
  (fetch_error_propagates_and_aborts_scan envC3 "cat1" [] (PyExc.fetchError "net down")
    3 (12 / 100) (13 / 100) (3 / 10) 10 8 (Option.some [])).1 (by simp [envC3])

/-- `mergeSort` on a two-element list compares the two elements once. -/
theorem mergeSort_pair {α : Type} (le : α → α → Bool) (a b : α) :
    List.mergeSort [a, b] le = if le a b then [a, b] else [b, a] := by
  rw [List.mergeSort]
  simp [List.splitInTwo, List.mergeSort, List.merge]

/-- Claim C5, counterexample.  Python's `or` in the sort key treats a
profit of exactly 0 as falsy and replaces it by −9·10⁹, so a
zero-profit row sorts *below* a negative-profit row: with thresholds
lowered to −2 the scan returns `[rowB5, rowA5]` whose profits are
(−1, 0) — strictly increasing, contradicting the claimed non-increasing
profit order. -/
theorem find_opportunities_ranking_counterexample :
    find_opportunities envC5 ["c"] (-2) (-2) 0 0 0 (Option.some []) 1 =
      Except.ok [rowB5, rowA5] ∧
    rowB5.est_profit_gbp = Option.some (-1) ∧
    rowA5.est_profit_gbp = Option.some 0 ∧
    ((-1 : ℚ) < 0) := by
  refine ⟨?_, rfl, rfl, by norm_num⟩
  simp [find_opportunities, processCategories, processProducts, processProduct, envC5,
    bind, Except.bind, pure, Except.pure, titleHitsAvoid, estimate_profit, est_margin,
    orch_margin, pyTruthy, prodA5, prodB5, rowA5, rowB5]
  norm_num
  rw [mergeSort_pair]
  norm_num [rowLe, rowKey]

/-- Claim C5, amended: the rows are ordered non-increasingly in the actual
sort key — the profit with an absent *or zero* profit replaced by
−9·10⁹ — and rows of equal key appear with non-increasing recent-sales
count.  (When every row's profit is nonzero this is the claimed
profit-descending, sales-descending order.) -/
theorem find_opportunities_ranking_amended (env : ScanEnv) (cats : List String)
    (mp mm fr ff : ℚ) (ms qw : Nat) (av : Option (List String))
    (rows : List OpportunityRow)
    (h : find_opportunities env cats mp mm ms fr ff av qw = Except.ok rows) :
    List.Pairwise
      (fun a b => rowKey b < rowKey a ∨
        (rowKey b = rowKey a ∧ b.sold_recent ≤ a.sold_recent)) rows := by
  have htrans : ∀ a b c : OpportunityRow, rowLe a b → rowLe b c → rowLe a c := by
    intro a b c hab hbc
    simp only [rowLe, Bool.or_eq_true, Bool.and_eq_true, decide_eq_true_eq] at hab hbc ⊢
    rcases hab with h1 | ⟨h1, h2⟩ <;> rcases hbc with h3 | ⟨h3, h4⟩
    · exact Or.inl (h3.trans h1)
    · exact Or.inl (h3 ▸ h1)
    · exact Or.inl (h1 ▸ h3)
    · exact Or.inr ⟨h3.trans h1, h4.trans h2⟩
  have htotal : ∀ a b : OpportunityRow, rowLe a b || rowLe b a := by
    intro a b
    simp only [rowLe, Bool.or_eq_true, Bool.and_eq_true, decide_eq_true_eq]
    rcases lt_trichotomy (rowKey a) (rowKey b) with hlt | heq | hgt
    · exact Or.inr (Or.inl hlt)
    · rcases Nat.le_total b.sold_recent a.sold_recent with hs | hs
      · exact Or.inl (Or.inr ⟨heq.symm, hs⟩)
      · exact Or.inr (Or.inr ⟨heq, hs⟩)
    · exact Or.inl (Or.inl hgt)
  rw [find_opportunities] at h
  cases hpc : processCategories env (av.getD DEFAULT_AVOID_KEYWORDS) qw fr ff mp mm ms cats with
  | error e => rw [hpc] at h; simp [bind, Except.bind] at h
  | ok rs =>
      rw [hpc] at h
      simp only [bind, Except.bind, pure, Except.pure, Except.ok.injEq] at h
      subst h
      exact (List.sorted_mergeSort htrans htotal rs).imp (fun hab => by
        simpa only [rowLe, Bool.or_eq_true, Bool.and_eq_true, decide_eq_true_eq] using hab)

/-- Witness for `find_opportunities_ranking_amended`: the concrete output
`[rowB5, rowA5]` is non-increasing in the substituted key (−1 above
−9·10⁹). -/
theorem find_opportunities_ranking_amended_witness :
    List.Pairwise
      (fun a b => rowKey b < rowKey a ∨
        (rowKey b = rowKey a ∧ b.sold_recent ≤ a.sold_recent)) [rowB5, rowA5] := by
  have hrun : find_opportunities envC5 ["c"] (-2) (-2) 0 0 0 (Option.some []) 1 =
      Except.ok [rowB5, rowA5] := by
    simp [find_opportunities, processCategories, processProducts, processProduct, envC5,
      bind, Except.bind, pure, Except.pure, titleHitsAvoid, estimate_profit, est_margin,
      orch_margin, pyTruthy, prodA5, prodB5, rowA5, rowB5]
    norm_num
    rw [mergeSort_pair]
    norm_num [rowLe, rowKey]
  exact find_opportunities_ranking_amended envC5 ["c"] (-2) (-2) 0 0 0 1
    (Option.some []) [rowB5, rowA5] hrun

/-- `strLe` is transitive. -/
theorem strLe_trans : ∀ a b c : String, strLe a b → strLe b c → strLe a c := by
  intro a b c hab hbc
  simp only [strLe, decide_eq_true_eq] at hab hbc ⊢
  exact le_trans hab hbc

/-- `strLe` is total. -/
theorem strLe_total : ∀ a b : String, strLe a b || strLe b a := by
  intro a b
  simp only [strLe, Bool.or_eq_true, decide_eq_true_eq]
  exact le_total a b

/-- Sorting then truncating the seed-list fallback returns a permutation
of `DEFAULT_SEED_CATEGORIES.take maxc` (which has at most `maxc`
elements, so the truncation removes nothing). -/
theorem seedFallbackPerm (maxc : Nat) :
    ((sortStrings (DEFAULT_SEED_CATEGORIES.take maxc)).take maxc).Perm
      (DEFAULT_SEED_CATEGORIES.take maxc) := by
  have hlen : (sortStrings (DEFAULT_SEED_CATEGORIES.take maxc)).length ≤ maxc := by
    rw [sortStrings, List.length_mergeSort, List.length_take]
    exact Nat.min_le_left _ _
  rw [List.take_of_length_le hlen]
  exact List.mergeSort_perm _ _

/-- Claim C9: `discover_best_seller_categories` never propagates a fetch
error (the model is a total function whose `Except.error` branch is the
`except FetchError` arm): on a root-page fetch failure, or when extraction
collects no category URLs, the collected set is the fixed seed list
truncated to `max_categories`, and the result is a permutation of that
truncated seed list; in every case the returned list is the
lexicographically sorted collected set truncated — after sorting — to at
most `max_categories` entries. -/
theorem discover_categories_spec :
    (∀ fetched maxc, discover_best_seller_categories fetched maxc =
        (sortStrings (collectedCategories fetched maxc)).take maxc) ∧
    (∀ fetched maxc, List.Sorted (fun a b : String => a ≤ b)
        (discover_best_seller_categories fetched maxc)) ∧
    (∀ fetched maxc, (discover_best_seller_categories fetched maxc).length ≤ maxc) ∧
    (∀ e maxc, (discover_best_seller_categories (Except.error e) maxc).Perm
        (DEFAULT_SEED_CATEGORIES.take maxc)) ∧
    (∀ urls maxc, collectLoop maxc urls [] = [] →
        (discover_best_seller_categories (Except.ok urls) maxc).Perm
          (DEFAULT_SEED_CATEGORIES.take maxc)) := by
  refine ⟨fun fetched maxc => rfl, ?_, ?_, ?_, ?_⟩
  · intro fetched maxc
    have hp := List.sorted_mergeSort strLe_trans strLe_total
      (collectedCategories fetched maxc)
    have hp2 := List.Pairwise.sublist
      (List.take_sublist maxc (List.mergeSort (collectedCategories fetched maxc) strLe)) hp
    exact hp2.imp (fun hab => by simpa only [strLe, decide_eq_true_eq] using hab)
  · intro fetched maxc
    rw [discover_best_seller_categories, List.length_take]
    exact Nat.min_le_left _ _
  · intro e maxc
    exact seedFallbackPerm maxc
  · intro urls maxc h
    show ((sortStrings (collectedCategories (Except.ok urls) maxc)).take maxc).Perm _
    rw [show collectedCategories (Except.ok urls) maxc =
        DEFAULT_SEED_CATEGORIES.take maxc from by
      simp only [collectedCategories, h, if_pos]]
    exact seedFallbackPerm maxc

/-- Witness for `discover_categories_spec`: when the root page yields no
matching anchors, the result is a permutation of the first three seed
categories. -/
theorem discover_categories_spec_witness :
    (discover_best_seller_categories (Except.ok []) 3).Perm
      (DEFAULT_SEED_CATEGORIES.take 3) :=
  discover_categories_spec.2.2.2.2 [] 3 rfl

end Arbitrage
